import Mathlib

/-!
Verification of the fr-rap-classement text-scoring pipeline.

The Python sources under `data-pipeline/` are shallowly embedded here.
Strings are modelled as `List Char` (Python strings are sequences of
code points), ints as `Nat`/`Int`, and float arithmetic as exact `ℚ`/`ℝ`
arithmetic.  Each definition mirrors one Python function and is named
after it where Lean allows.
-/

namespace FrRap

/-- Python strings are sequences of Unicode code points. -/
abbrev Str := List Char

/-- Whitespace recognised by Python `str.strip` / `str.split`. -/
def isPySpace (c : Char) : Bool :=
  c == ' ' || c == '\t' || c == '\n' || c == '\r' || c == '\x0b' || c == '\x0c'

/-- Python `str.strip()` with no arguments. -/
def pyStrip (s : Str) : Str :=
  ((s.dropWhile isPySpace).reverse.dropWhile isPySpace).reverse

/-- Python `str.lower()`, modelled on the Latin alphabet (plus the accented
characters appearing in the pipeline's data); other characters are unchanged. -/
def frLower (c : Char) : Char :=
  if 'A' ≤ c ∧ c ≤ 'Z' then Char.ofNat (c.toNat + 32)
  else if c = 'À' then 'à' else if c = 'Â' then 'â' else if c = 'Ä' then 'ä'
  else if c = 'É' then 'é' else if c = 'È' then 'è' else if c = 'Ê' then 'ê'
  else if c = 'Ë' then 'ë' else if c = 'Ï' then 'ï' else if c = 'Î' then 'î'
  else if c = 'Ô' then 'ô' else if c = 'Ù' then 'ù' else if c = 'Û' then 'û'
  else if c = 'Ü' then 'ü' else if c = 'Œ' then 'œ' else if c = 'Æ' then 'æ'
  else if c = 'Ç' then 'ç' else c

/-- Embeds `str.lower()` applied to a whole string. -/
def lowerStr (s : Str) : Str := s.map frLower

/-- Python `s[-n:]` (with the source's guard `s[-n:] if len(s) >= n else s`):
for `n = 0` Python returns the whole string, otherwise the last `n` characters. -/
def pyLastN (n : ℕ) (s : Str) : Str :=
  if n = 0 then s else s.drop (s.length - n)

/-- One fuel-indexed step list for literal global substitution.  The fuel is
always instantiated with the length of the scanned string, which bounds the
number of steps, so the fuel never runs out; it only makes the recursion
structural. -/
def replaceAllGo (p r : Str) : ℕ → Str → Str
  | _, [] => []
  | 0, s => s
  | fuel + 1, c :: t =>
    if p ≠ [] ∧ p.isPrefixOf (c :: t) then
      r ++ replaceAllGo p r fuel ((c :: t).drop p.length)
    else
      c :: replaceAllGo p r fuel t

/-- Python `re.sub(p, r, s)` for a literal pattern `p`: leftmost,
non-overlapping, global replacement. -/
def replaceAll (p r s : Str) : Str := replaceAllGo p r s.length s

/-- Embeds `phonetics.RHYME_PATTERNS`: the ordered suffix → phoneme table
(Python dicts preserve insertion order, and `get_phonetic_ending`
iterates it in that order). -/
def RHYME_PATTERNS : List (Str × Str) := [
  ("oir".data, "waʁ".data), ("oire".data, "waʁ".data),
  ("eur".data, "œʁ".data), ("eure".data, "œʁ".data),
  ("er".data, "e".data), ("é".data, "e".data), ("ée".data, "e".data),
  ("és".data, "e".data), ("ées".data, "e".data),
  ("tion".data, "sjɔ̃".data), ("sion".data, "zjɔ̃".data),
  ("ment".data, "mɑ̃".data),
  ("ant".data, "ɑ̃".data), ("ent".data, "ɑ̃".data),
  ("ants".data, "ɑ̃".data), ("ents".data, "ɑ̃".data),
  ("ain".data, "ɛ̃".data), ("ein".data, "ɛ̃".data), ("in".data, "ɛ̃".data),
  ("on".data, "ɔ̃".data), ("ons".data, "ɔ̃".data),
  ("ou".data, "u".data), ("ous".data, "u".data), ("out".data, "u".data),
  ("age".data, "aʒ".data), ("ages".data, "aʒ".data),
  ("ique".data, "ik".data), ("iques".data, "ik".data)]

/-- First entry of `RHYME_PATTERNS` whose grapheme suffix matches the word
(the Python `for pattern, phoneme in RHYME_PATTERNS.items()` loop). -/
def firstRhymePattern (w : Str) : Option Str :=
  (RHYME_PATTERNS.find? (fun p => p.1.isSuffixOf w)).map Prod.snd

/-- The ordered substitution rules of `phonetics._fallback_g2p`. -/
def G2P_RULES : List (Str × Str) := [
  ("eau".data, "o".data), ("au".data, "o".data), ("ou".data, "u".data),
  ("oi".data, "wa".data), ("ai".data, "ɛ".data), ("ei".data, "ɛ".data),
  ("an".data, "ɑ̃".data), ("en".data, "ɑ̃".data),
  ("am".data, "ɑ̃".data), ("em".data, "ɑ̃".data),
  ("on".data, "ɔ̃".data), ("om".data, "ɔ̃".data),
  ("in".data, "ɛ̃".data), ("im".data, "ɛ̃".data),
  ("ain".data, "ɛ̃".data), ("ein".data, "ɛ̃".data),
  ("un".data, "œ̃".data), ("um".data, "œ̃".data),
  ("eu".data, "ø".data), ("oeu".data, "ø".data), ("oe".data, "ø".data),
  ("ch".data, "ʃ".data), ("gn".data, "ɲ".data),
  ("qu".data, "k".data), ("gu".data, "g".data),
  ("ph".data, "f".data), ("th".data, "t".data), ("ç".data, "s".data),
  ("é".data, "e".data), ("è".data, "ɛ".data), ("ê".data, "ɛ".data),
  ("à".data, "a".data), ("â".data, "a".data),
  ("ù".data, "u".data), ("û".data, "u".data),
  ("î".data, "i".data), ("ï".data, "i".data), ("ô".data, "o".data)]

/-- Python `re.sub(r"[esxzt]$", "", s)`: drops one character of the class
`[esxzt]` at the end of the string, or just before a string-final newline. -/
def stripSilentEnd (s : Str) : Str :=
  let silent : Str := ['e', 's', 'x', 'z', 't']
  match s.reverse with
  | c :: rest =>
    if silent.contains c then rest.reverse
    else
      match rest with
      | c2 :: rest2 =>
        if c = '\n' ∧ silent.contains c2 then ('\n' :: rest2).reverse else s
      | [] => s
  | [] => s

/-- Embeds `phonetics._fallback_g2p`: lowercase, apply the ordered substitution
rules, then strip a silent terminal letter. -/
def fallback_g2p (s : Str) : Str :=
  stripSilentEnd
    (G2P_RULES.foldl (fun acc rule => replaceAll rule.1 rule.2 acc) (lowerStr s))

/-- Embeds `phonetics.get_ipa`: empty for whitespace-only text, else the fallback
grapheme-to-phoneme conversion (the phonemizer branch is dead code: the
function unconditionally uses the fallback "for speed"). -/
def getIpa (s : Str) : Str :=
  if pyStrip s = [] then [] else fallback_g2p s

/-- Embeds `phonetics.get_phonetic_ending`: pattern-table lookup first,
otherwise the last `n` symbols of the g2p fallback (or of the word itself
when the fallback is empty). -/
def get_phonetic_ending (word : Str) (n : ℕ) : Str :=
  if word = [] then []
  else
    let w := pyStrip (lowerStr word)
    match firstRhymePattern w with
    | some ph => ph
    | none =>
      let ipa := getIpa w
      if ipa = [] then pyLastN n w
      else pyLastN n (ipa.filter (fun c => ¬ c = ' '))

/-- The depth-independent string whose `n`-suffix `get_phonetic_ending`
returns on the non-pattern path. -/
def endingSource (word : Str) : Str :=
  if word = [] then []
  else
    let w := pyStrip (lowerStr word)
    let ipa := getIpa w
    if ipa = [] then w else ipa.filter (fun c => ¬ c = ' ')

/-- Embeds `phonetics.rhymes_with`: equal non-empty phonetic endings. -/
def rhymes_with (w1 w2 : Str) (strictness : ℕ) : Bool :=
  let e1 := get_phonetic_ending w1 strictness
  let e2 := get_phonetic_ending w2 strictness
  e1 == e2 && !(e1 == [])

lemma firstRhymePattern_nil : firstRhymePattern [] = none := by decide

/-- On the pattern-table path the depth argument is ignored. -/
lemma ending_of_pattern {w ph : Str}
    (h : firstRhymePattern (pyStrip (lowerStr w)) = some ph) (n : ℕ) :
    get_phonetic_ending w n = ph := by
  by_cases hw : w = []
  · subst hw
    simp [lowerStr, pyStrip, firstRhymePattern_nil] at h
  · unfold get_phonetic_ending
    simp only [hw, if_false, h]

/-- Off the pattern-table path the ending is a depth-indexed suffix of a
depth-independent source string. -/
lemma ending_of_fallback {w : Str}
    (h : firstRhymePattern (pyStrip (lowerStr w)) = none) (n : ℕ) :
    get_phonetic_ending w n = pyLastN n (endingSource w) := by
  by_cases hw : w = []
  · subst hw
    simp [get_phonetic_ending, endingSource, pyLastN]
  · unfold get_phonetic_ending endingSource
    simp only [hw, if_false, h]
    by_cases hipa : getIpa (pyStrip (lowerStr w)) = [] <;> simp [hipa]

lemma pyLastN_pyLastN {m n : ℕ} (hm : m ≠ 0) (hmn : m ≤ n) (l : Str) :
    pyLastN m (pyLastN n l) = pyLastN m l := by
  by_cases hn : n = 0
  · subst hn; simp [pyLastN]
  · simp only [pyLastN, hm, hn, if_false]
    rw [List.drop_drop]
    congr 1
    simp only [List.length_drop]
    omega

lemma pyLastN_eq_nil_iff {m : ℕ} (hm : m ≠ 0) (l : Str) :
    pyLastN m l = [] ↔ l = [] := by
  simp only [pyLastN, hm, if_false]
  constructor
  · intro h
    have := List.drop_eq_nil_iff.mp h
    have : l.length = 0 := by omega
    exact List.length_eq_zero.mp this
  · intro h; subst h; simp

/-- One step of maximal-run extraction, processed right to left.  The state
is the list of runs found so far plus a flag telling whether the current
position is adjacent to the head run. -/
def runsOfAux (p : Char → Bool) (c : Char) (st : List Str × Bool) : List Str × Bool :=
  if p c then
    match st with
    | (r :: rs, true) => ((c :: r) :: rs, true)
    | (rs, _) => ([c] :: rs, true)
  else (st.1, false)

/-- Python `re.findall(r"[class]+", s)` for a character class: the maximal
runs of characters satisfying `p`, in order. -/
def runsOf (p : Char → Bool) (s : Str) : List Str :=
  (s.foldr (runsOfAux p) ([], false)).1

/-- Python `s.split(sep)` for a single-character separator (keeps empties). -/
def splitOnChar (sep : Char) (s : Str) : List Str :=
  s.foldr
    (fun c acc =>
      match acc with
      | [] => [[c]]
      | r :: rs => if c = sep then [] :: r :: rs else (c :: r) :: rs)
    [[]]

/-- The line list used by every analyzer:
`[line.strip() for line in lyrics.split('\n') if line.strip()]`. -/
def nonEmptyLines (s : Str) : List Str :=
  ((splitOnChar '\n' s).map pyStrip).filter (fun l => ¬ l = [])

/-- Python `' '.join(parts)`. -/
def joinWithSpace : List Str → Str
  | [] => []
  | [r] => r
  | r :: rs => r ++ ' ' :: joinWithSpace rs

/-- Python `'\n'.join(parts)`. -/
def joinWithNewline : List Str → Str
  | [] => []
  | [r] => r
  | r :: rs => r ++ '\n' :: joinWithNewline rs

/-- Python `s.split()` with no argument: maximal runs of non-whitespace. -/
def pySplitWs (s : Str) : List Str := runsOf (fun c => ¬ isPySpace c) s

/-- The character class of the word-extraction regex
`[a-zàâäéèêëïîôùûüœæ]+` shared by the flow/hook analyzers. -/
def isFrLetter (c : Char) : Bool :=
  ('a' ≤ c ∧ c ≤ 'z') || ("àâäéèêëïîôùûüœæ").data.contains c

/-- Embeds `vocabulary.filter_french_text`: keeps maximal runs of Latin letters
(with French accents), digits, whitespace and basic punctuation, and joins
the runs with single spaces. -/
def isFilterAllowed (c : Char) : Bool :=
  ('a' ≤ c ∧ c ≤ 'z') || ('A' ≤ c ∧ c ≤ 'Z') || ('0' ≤ c ∧ c ≤ '9') ||
  ("àâäéèêëïîôùûüœæçÀÂÄÉÈÊËÏÎÔÙÛÜŒÆÇ").data.contains c ||
  isPySpace c || (".,;:!?-").data.contains c || c == '\x27' || c == '\x22'

/-- Embeds `vocabulary.filter_french_text`. -/
def filter_french_text (s : Str) : Str :=
  joinWithSpace (runsOf isFilterAllowed s)

/-- The seven themes of `thematic.THEME_KEYWORDS`, in dict order. -/
inductive Theme where
  | street | money | love | party | conscious | spiritual | ego
  deriving DecidableEq, Repr

instance : Fintype Theme :=
  ⟨⟨{Theme.street, Theme.money, Theme.love, Theme.party, Theme.conscious,
     Theme.spiritual, Theme.ego}, by decide⟩, by intro x; cases x <;> decide⟩

/-- The themes in the iteration order of the Python dict. -/
def themesList : List Theme :=
  [Theme.street, Theme.money, Theme.love, Theme.party, Theme.conscious,
   Theme.spiritual, Theme.ego]

/-- Embeds `thematic.THEME_KEYWORDS`, embedded verbatim (including the duplicate
"fille" entry under `love` and the multi-word "garde à vue" under `street`,
which can never match a single token). -/
def THEME_KEYWORDS : Theme → List Str
  | Theme.street =>
    [("rue").data, ("quartier").data, ("bloc").data, ("béton").data,
     ("ghetto").data, ("cité").data, ("bitume").data, ("trafic").data,
     ("deal").data, ("stup").data, ("bicrave").data, ("weed").data,
     ("shit").data, ("cocaine").data, ("flic").data, ("bac").data,
     ("garde à vue").data, ("prison").data, ("taule").data, ("cellule").data,
     ("gang").data, ("bande").data, ("crew").data, ("équipe").data,
     ("frères").data, ("gars").data, ("mecs").data]
  | Theme.money =>
    [("argent").data, ("billet").data, ("euro").data, ("liasse").data,
     ("cash").data, ("thune").data, ("oseille").data, ("fric").data,
     ("blé").data, ("money").data, ("fortune").data, ("riche").data,
     ("millionnaire").data, ("business").data, ("hustle").data,
     ("grind").data, ("travail").data, ("entreprise").data, ("rolex").data,
     ("mercedes").data, ("bmw").data, ("luxe").data, ("chaîne").data,
     ("diamant").data]
  | Theme.love =>
    [("amour").data, ("cœur").data, ("aimer").data, ("femme").data,
     ("fille").data, ("belle").data, ("beauté").data, ("sentiment").data,
     ("relation").data, ("couple").data, ("mariage").data, ("famille").data,
     ("maman").data, ("mère").data, ("père").data, ("enfant").data,
     ("fils").data, ("fille").data, ("trahison").data, ("mensonge").data,
     ("tromperie").data, ("rupture").data, ("séparation").data]
  | Theme.party =>
    [("fête").data, ("danse").data, ("danser").data, ("club").data,
     ("nuit").data, ("bouteille").data, ("champagne").data, ("alcool").data,
     ("vodka").data, ("hennessy").data, ("whisky").data, ("boire").data,
     ("ivre").data, ("ambiance").data, ("soirée").data, ("musique").data,
     ("dj").data, ("boîte").data, ("discothèque").data]
  | Theme.conscious =>
    [("société").data, ("politique").data, ("système").data, ("justice").data,
     ("injustice").data, ("police").data, ("racisme").data,
     ("discrimination").data, ("média").data, ("mensonge").data,
     ("vérité").data, ("peuple").data, ("révolution").data, ("combat").data,
     ("lutte").data, ("résistance").data, ("éducation").data, ("école").data,
     ("histoire").data, ("france").data, ("banlieue").data]
  | Theme.spiritual =>
    [("dieu").data, ("allah").data, ("prière").data, ("prier").data,
     ("foi").data, ("croire").data, ("religion").data, ("âme").data,
     ("esprit").data, ("destin").data, ("karma").data, ("paradis").data,
     ("enfer").data, ("mort").data, ("vie").data, ("éternel").data,
     ("bénédiction").data, ("miracle").data]
  | Theme.ego =>
    [("roi").data, ("boss").data, ("patron").data, ("numéro un").data,
     ("meilleur").data, ("légende").data, ("goat").data, ("first").data,
     ("top").data, ("champion").data, ("victoire").data, ("succès").data,
     ("respect").data, ("réputation").data, ("nom").data, ("legacy").data,
     ("histoire").data, ("haters").data, ("jaloux").data, ("envieux").data,
     ("ennemis").data, ("clash").data]

/-- The token list scanned by `ThematicAnalyzer.detect_themes`:
`filter_french_text(lyrics.lower()).split()`. -/
def themeWords (lyrics : Str) : List Str :=
  pySplitWs (filter_french_text (lowerStr lyrics))

/-- Embeds `sum(1 for word in words if word in keywords)` for one theme. -/
def themeCount (lyrics : Str) (t : Theme) : ℕ :=
  ((themeWords lyrics).filter (fun w => (THEME_KEYWORDS t).contains w)).length

/-- Embeds `ThematicAnalyzer.detect_themes`: the theme weight distribution.
Empty lyrics or fewer than 100 tokens give the all-zero distribution; if no
keyword hits at all, the uniform `1/7` distribution; otherwise hit counts
normalised by the total number of hits. -/
def detect_themes (lyrics : Str) : Theme → ℚ :=
  if lyrics = [] then fun _ => 0
  else if (themeWords lyrics).length < 100 then fun _ => 0
  else
    let total := themesList.foldl (fun a t => a + themeCount lyrics t) 0
    if total = 0 then fun _ => (1 : ℚ) / 7
    else fun t => (themeCount lyrics t : ℚ) / (total : ℚ)

/-- Embeds `max(theme_distribution, key=theme_distribution.get)`: the first theme in
dict order with maximal weight. -/
def dominantTheme (dist : Theme → ℚ) : Theme :=
  (themesList.tail).foldl (fun best t => if dist best < dist t then t else best)
    Theme.street

/-- Embeds `ThematicAnalyzer.calculate_entropy`: Shannon entropy of the
distribution, normalised by the maximal entropy `log2 7`. -/
noncomputable def calculate_entropy (dist : Theme → ℚ) : ℝ :=
  let e : ℝ := -(themesList.foldl
    (fun a t => a + (if 0 < dist t then (dist t : ℝ) * Real.logb 2 (dist t) else 0)) 0)
  let maxEntropy : ℝ := Real.logb 2 7
  if 0 < maxEntropy then e / maxEntropy else 0

/-- The record returned by `ThematicAnalyzer.calculate_coherence_score`. -/
structure ThematicMetrics where
  dominant_theme : Theme
  dominant_theme_weight : ℚ
  theme_entropy : ℝ
  coherence_score : ℝ
  theme_distribution : Theme → ℚ

/-- Embeds `ThematicAnalyzer.calculate_coherence_score`: coherence is
`(dominant_weight * 100) * (1 - entropy * 0.5)`, then doubled and clamped to
[0,100].  (The distribution dict always has 7 entries, so the Python
`if theme_distribution:` branch is always taken.) -/
noncomputable def calculate_coherence_score (lyrics : Str) : ThematicMetrics :=
  let dist := detect_themes lyrics
  let dom := dominantTheme dist
  let w := dist dom
  let e := calculate_entropy dist
  let coherence : ℝ := ((w : ℝ) * 100) * (1 - e * 0.5)
  { dominant_theme := dom
    dominant_theme_weight := w
    theme_entropy := e
    coherence_score := min 100 (max 0 (coherence * 2))
    theme_distribution := dist }

/-- Python `round(x)` (banker's rounding: ties go to the even integer). -/
noncomputable def pyRound (x : ℝ) : ℤ :=
  if x - ⌊x⌋ < 1/2 then ⌊x⌋
  else if 1/2 < x - ⌊x⌋ then ⌊x⌋ + 1
  else if ⌊x⌋ % 2 = 0 then ⌊x⌋ else ⌊x⌋ + 1

/-- Python `round(x, nd)` on ideal real arithmetic. -/
noncomputable def pyRoundTo (nd : ℕ) (x : ℝ) : ℝ :=
  ((pyRound (x * 10 ^ nd) : ℤ) : ℝ) / 10 ^ nd

/-- Last word of a line for end-rhyme analysis: `words[-1]` of the word-regex
matches, or the empty string when the line has none (flow.py, lines 74-80). -/
def lastWordOrEmpty (line : Str) : Str :=
  match (runsOf isFrLetter (lowerStr line)).getLast? with
  | some w => w
  | none => []

/-- The rhyming/total pair counts of `flow._calculate_rhyme_density`:
consecutive (AABB) and alternating (ABAB) end-word pairs, skipping pairs
with an empty member. -/
def rhymeDensityCounts : List Str → ℕ × ℕ
  | a :: b :: rest =>
    let prev := rhymeDensityCounts (b :: rest)
    let consec : ℕ × ℕ :=
      if a ≠ [] ∧ b ≠ [] then ((if rhymes_with a b 2 then 1 else 0), 1) else (0, 0)
    let altern : ℕ × ℕ :=
      match rest with
      | c :: _ =>
        if a ≠ [] ∧ c ≠ [] then ((if rhymes_with a c 2 then 1 else 0), 1) else (0, 0)
      | [] => (0, 0)
    (prev.1 + consec.1 + altern.1, prev.2 + consec.2 + altern.2)
  | _ => (0, 0)

/-- Embeds `flow._calculate_rhyme_density` (the `rhymes_with` calls use the default
strictness 2). -/
def calculate_rhyme_density (lines : List Str) : ℚ :=
  if lines.length < 2 then 0
  else
    let lw := lines.map lastWordOrEmpty
    let counts := rhymeDensityCounts lw
    if counts.2 = 0 then 0
    else min 1 ((counts.1 : ℚ) / (counts.2 : ℚ) * 2)

/-- Number of non-adjacent in-line word pairs that rhyme at strictness 2
(`flow._calculate_internal_rhymes` inner loops). -/
def internalRhymeCount : List Str → ℕ
  | [] => 0
  | w :: rest =>
    (rest.drop 1).countP (fun v => rhymes_with w v 2) + internalRhymeCount rest

/-- Embeds `flow._calculate_internal_rhymes`. -/
def calculate_internal_rhymes (lines : List Str) : ℚ :=
  if lines = [] then 0
  else
    let stats := lines.foldl
      (fun (acc : ℕ × ℕ) line =>
        let ws := runsOf isFrLetter (lowerStr line)
        if ws.length < 4 then acc
        else
          let found := internalRhymeCount ws
          if 0 < found then (acc.1 + 1, acc.2 + min found 3) else acc)
      (0, 0)
    min 1 ((stats.1 : ℚ) / (lines.length : ℚ) * 0.6 +
      min ((stats.2 : ℚ) / (lines.length : ℚ) / 2) 0.4)

/-- The vowel-digraph collapsing rules of `count_syllables_french`. -/
def SYLLABLE_DIGRAPHS : List (Str × Str) := [
  ("eau".data, "O".data), ("au".data, "O".data), ("ou".data, "U".data),
  ("oi".data, "W".data), ("ai".data, "E".data), ("ei".data, "E".data),
  ("eu".data, "Y".data), ("oeu".data, "Y".data), ("oe".data, "Y".data)]

/-- The vowel set of `count_syllables_french` (including the capital
pseudo-vowels introduced by the digraph collapsing). -/
def isSylVowel (c : Char) : Bool :=
  ("aeiouyàâäéèêëïîôùûüœæOUWEY").data.contains c

/-- Per-word step of `phonetics.count_syllables_french`: collapse digraphs,
count vowel runs, apply the silent-final-e and silent-"es" corrections,
floor at one syllable. -/
def countSyllablesWord (w : Str) : ℕ :=
  let w := SYLLABLE_DIGRAPHS.foldl (fun acc r => replaceAll r.1 r.2 acc) w
  let n := (runsOf isSylVowel w).length
  let n :=
    match w.reverse with
    | e :: c :: _ =>
      if e = 'e' ∧ w.length > 2 ∧ ¬ isSylVowel c then max 1 (n - 1) else n
    | _ => n
  let n := if ("es").data.isSuffixOf w ∧ w.length > 3 then max 1 (n - 1) else n
  max 1 n

/-- Embeds `phonetics.count_syllables_french`. -/
def count_syllables_french (s : Str) : ℕ :=
  if s = [] then 0
  else (runsOf isFrLetter (lowerStr s)).foldl (fun a w => a + countSyllablesWord w) 0

/-- Embeds `phonetics.syllables_per_line`. -/
def syllables_per_line (s : Str) : List ℕ :=
  (nonEmptyLines s).map count_syllables_french

/-- Embeds `flow._calculate_syllable_variation`: coefficient of variation of
per-line syllable counts mapped through the three-zone piecewise score. -/
noncomputable def calculate_syllable_variation (lines : List Str) : ℝ :=
  let syllables := syllables_per_line (joinWithNewline lines)
  if syllables.length < 4 then 0.5
  else
    let n : ℝ := syllables.length
    let mean := ((syllables.sum : ℕ) : ℝ) / n
    if mean = 0 then 0
    else
      let variance := (syllables.map (fun s => ((s : ℝ) - mean) ^ 2)).sum / n
      let cv := Real.sqrt variance / mean
      let score :=
        if cv < 0.1 then cv * 5
        else if cv < 0.35 then 0.8 + (0.35 - |cv - 0.25|) * 2
        else max 0.3 (1 - (cv - 0.35) * 2)
      min 1 (max 0 score)

/-- The multisyllabic/checked pair counts of
`flow._calculate_multisyllabic_rhymes`: each end word against the next four
end words, at strictness 3. -/
def multisyllabicCounts : List Str → ℕ × ℕ
  | [] => (0, 0)
  | w :: rest =>
    let prev := multisyllabicCounts rest
    let valid := if w ≠ [] then (rest.take 4).filter (fun v => ¬ v = []) else []
    (prev.1 + valid.countP (fun v => rhymes_with w v 3), prev.2 + valid.length)

/-- Embeds `flow._calculate_multisyllabic_rhymes` (its `last_words` list only keeps
lines that contain at least one word). -/
def calculate_multisyllabic_rhymes (lines : List Str) : ℚ :=
  if lines.length < 2 then 0
  else
    let lw := lines.filterMap (fun line => (runsOf isFrLetter (lowerStr line)).getLast?)
    let counts := multisyllabicCounts lw
    if counts.2 = 0 then 0
    else min 1 ((counts.1 : ℚ) / (counts.2 : ℚ) * 5)

/-- Embeds `flow.calculate_flow_score`: guard on empty/whitespace input and on
fewer than 4 non-empty lines, then the weighted combination (weights
`config.FLOW_WEIGHTS` = 0.40/0.25/0.20/0.15), rounded and clamped. -/
noncomputable def calculate_flow_score (lyrics : Str) : ℝ :=
  if lyrics = [] ∨ pyStrip lyrics = [] then 0
  else
    let lines := nonEmptyLines lyrics
    if lines.length < 4 then 0
    else
      let score : ℝ :=
        (calculate_rhyme_density lines : ℝ) * 0.40 * 100 +
        (calculate_internal_rhymes lines : ℝ) * 0.25 * 100 +
        calculate_syllable_variation lines * 0.20 * 100 +
        (calculate_multisyllabic_rhymes lines : ℝ) * 0.15 * 100
      ((min 100 (max 0 (pyRound score)) : ℤ) : ℝ)

/-- The record returned by `flow.calculate_flow_metrics`. -/
structure FlowMetrics where
  flow_score : ℝ
  rhyme_density : ℝ
  internal_rhymes : ℝ
  syllable_variation : ℝ
  multisyllabic_rhymes : ℝ
  avg_syllables_per_line : ℝ

/-- Embeds `flow.calculate_flow_metrics`: the documented zero-state record below 4
non-empty lines, otherwise the rounded sub-scores. -/
noncomputable def calculate_flow_metrics (lyrics : Str) : FlowMetrics :=
  let lines := nonEmptyLines lyrics
  if lines.length < 4 then ⟨0, 0, 0, 0, 0, 0⟩
  else
    let syllables := syllables_per_line (joinWithNewline lines)
    { flow_score := calculate_flow_score lyrics
      rhyme_density := pyRoundTo 3 (calculate_rhyme_density lines : ℝ)
      internal_rhymes := pyRoundTo 3 (calculate_internal_rhymes lines : ℝ)
      syllable_variation := pyRoundTo 3 (calculate_syllable_variation lines)
      multisyllabic_rhymes := pyRoundTo 3 (calculate_multisyllabic_rhymes lines : ℝ)
      avg_syllables_per_line :=
        if syllables ≠ [] then
          pyRoundTo 1 (((syllables.sum : ℕ) : ℝ) / (syllables.length : ℝ))
        else 0 }

/-- Fuel-indexed splitter for a multi-character separator; the fuel is
always the scanned string's length, which bounds the number of steps. -/
def splitSeqGo (sep : Str) : ℕ → Str → List Str
  | _, [] => [[]]
  | 0, s => [s]
  | fuel + 1, c :: t =>
    if sep ≠ [] ∧ sep.isPrefixOf (c :: t) then
      [] :: splitSeqGo sep fuel ((c :: t).drop sep.length)
    else
      match splitSeqGo sep fuel t with
      | [] => [[c]]
      | r :: rs => (c :: r) :: rs

/-- Python `s.split(sep)` for a multi-character separator. -/
def pySplitSeq (sep s : Str) : List Str := splitSeqGo sep s.length s

/-- Embeds `[p.strip() for p in lyrics.split('\n\n') if p.strip()]` (hooks.py). -/
def paragraphsOf (lyrics : Str) : List Str :=
  ((pySplitSeq ("\n\n").data lyrics).map pyStrip).filter (fun p => ¬ p = [])

/-- Number of distinct values occurring more than `k` times
(`sum(1 for count in Counter(l).values() if count > k)`). -/
def countRepeatedAbove (k : ℕ) (l : List Str) : ℕ :=
  (l.dedup.filter (fun x => k < l.count x)).length

/-- The sliding 3-word phrases of `hooks._calculate_repetition_score`. -/
def wordTriples : List Str → List Str
  | a :: b :: c :: rest => joinWithSpace [a, b, c] :: wordTriples (b :: c :: rest)
  | _ => []

/-- Embeds `hooks._calculate_repetition_score`.  The Python code compares truncated
md5 digests of the lowercased paragraphs; digest equality is modelled as
equality of the lowercased paragraphs themselves. -/
def calculate_repetition_score (lyrics : Str) : ℚ :=
  let paragraphs := paragraphsOf lyrics
  if paragraphs.length < 2 then
    let lines := ((splitOnChar '\n' lyrics).filter (fun l => ¬ pyStrip l = [])).map
      (fun l => lowerStr (pyStrip l))
    if lines.length < 4 then 0
    else min 1 ((countRepeatedAbove 1 lines : ℚ) / (lines.length : ℚ) * 4)
  else
    let paraKeys := paragraphs.map lowerStr
    let chorusFrac : ℚ := (countRepeatedAbove 1 paraKeys : ℚ) / (paragraphs.length : ℚ)
    let phrases := wordTriples (pySplitWs (lowerStr lyrics))
    let repeatedPhrases := (phrases.dedup.filter (fun p => 3 ≤ phrases.count p)).length
    let phraseScore : ℚ := min 1 ((repeatedPhrases : ℚ) / 20)
    chorusFrac * 0.6 + phraseScore * 0.4

/-- The vowel set of `hooks._calculate_phonetic_catchiness` (note: unlike
the word regex it excludes `œ` and `æ`). -/
def isCatchyVowel (c : Char) : Bool :=
  ("aeiouyàâäéèêëïîôùûü").data.contains c

/-- The consonant class of the `[bcdfghjklmnpqrstvwxz]{3,}` cluster regex. -/
def isPlainConsonant (c : Char) : Bool :=
  ("bcdfghjklmnpqrstvwxz").data.contains c

/-- Adjacent character pairs (`vowel_sequence[i:i+2]`). -/
def charPairs : Str → List (Char × Char)
  | a :: b :: rest => (a, b) :: charPairs (b :: rest)
  | _ => []

/-- Embeds `hooks._calculate_phonetic_catchiness`: average-word-length score, open
syllable share, consonant-cluster penalty and vowel-pair harmony, combined
0.3/0.3/0.2/0.2.  The second parameter mirrors the Python signature, which
receives the line list but never uses it. -/
def calculate_phonetic_catchiness (lyrics : Str) (_lines : List Str) : ℚ :=
  let words := runsOf isFrLetter (lowerStr lyrics)
  if words = [] then 0
  else
    let avgLen : ℚ := ((words.map List.length).sum : ℚ) / (words.length : ℚ)
    let lengthScore : ℚ := max 0 (1 - (avgLen - 4) / 6)
    let openCount := words.countP (fun w =>
      match w.getLast? with
      | some c => isCatchyVowel c
      | none => false)
    let openFrac : ℚ := (openCount : ℚ) / (words.length : ℚ)
    let clusters := (runsOf isPlainConsonant (lowerStr lyrics)).countP
      (fun r => 3 ≤ r.length)
    let clusterPenalty : ℚ := min 1 ((clusters : ℚ) / (words.length : ℚ) * 10)
    let clusterScore : ℚ := 1 - clusterPenalty
    let vowelSeq := (lowerStr lyrics).filter isCatchyVowel
    let harmonyScore : ℚ :=
      if 2 ≤ vowelSeq.length then
        let pairs := charPairs vowelSeq
        min 1 (((pairs.dedup.filter (fun p => 2 < pairs.count p)).length : ℚ) / 10)
      else 0.5
    lengthScore * 0.3 + openFrac * 0.3 + clusterScore * 0.2 + harmonyScore * 0.2

/-- Per-paragraph step of `hooks._calculate_rhythm_regularity`: `none` for
the `continue` cases, otherwise the four-tier step score of the syllable
coefficient of variation. -/
noncomputable def paragraphRegularity (para : Str) : Option ℝ :=
  let lines := nonEmptyLines para
  if lines.length < 2 then none
  else
    let syllables := lines.map count_syllables_french
    if syllables = [] then none
    else
      let n : ℝ := syllables.length
      let mean := ((syllables.sum : ℕ) : ℝ) / n
      if mean = 0 then none
      else
        let variance := (syllables.map (fun s => ((s : ℝ) - mean) ^ 2)).sum / n
        let cv := Real.sqrt variance / mean
        some (if cv < 0.15 then 1 else if cv < 0.3 then 0.7
          else if cv < 0.5 then 0.4 else 0.2)

/-- Embeds `hooks._calculate_rhythm_regularity`. -/
noncomputable def calculate_rhythm_regularity (lyrics : Str) : ℝ :=
  let paragraphs := paragraphsOf lyrics
  if paragraphs = [] then 0.5
  else
    let scores := paragraphs.filterMap paragraphRegularity
    if scores = [] then 0.5
    else scores.sum / (scores.length : ℝ)

/-- Stable insertion for sorting by length (Python `sorted(..., key=len)`). -/
def insertByLen (x : Str) : List Str → List Str
  | [] => [x]
  | y :: ys => if y.length < x.length then y :: insertByLen x ys else x :: y :: ys

/-- Stable sort by length. -/
def sortByLen : List Str → List Str
  | [] => []
  | x :: xs => insertByLen x (sortByLen xs)

/-- The first paragraph of each repeated-paragraph group (the `hooks` list of
`hooks._calculate_brevity_score`, with md5 equality modelled as lowercased
equality). -/
def repeatedParagraphFirsts (paragraphs : List Str) : List Str :=
  ((paragraphs.map lowerStr).dedup).filterMap (fun k =>
    match paragraphs.filter (fun p => lowerStr p = k) with
    | p :: _ :: _ => some p
    | _ => none)

/-- The four-zone average-words-per-line score of
`hooks._calculate_brevity_score`. -/
def brevityZones (avgWords : ℚ) : ℚ :=
  if avgWords < 4 then 0.7
  else if avgWords ≤ 8 then 1
  else if avgWords ≤ 12 then 0.7
  else max 0.3 (1 - (avgWords - 12) / 20)

/-- Embeds `hooks._calculate_brevity_score`. -/
def calculate_brevity_score (lyrics : Str) : ℚ :=
  let paragraphs := paragraphsOf lyrics
  if paragraphs.length < 2 then
    let lines := nonEmptyLines lyrics
    if lines = [] then 0.5
    else
      brevityZones
        (((lines.map (fun l => (pySplitWs l).length)).sum : ℚ) / (lines.length : ℚ))
  else
    let hooks := repeatedParagraphFirsts paragraphs
    let hooks := if hooks = [] then (sortByLen paragraphs).take 3 else hooks
    let hookWordCounts :=
      (hooks.map (fun h => (splitOnChar '\n' h).map (fun line => (pySplitWs line).length))).flatten
    let avgWords : ℚ :=
      if hookWordCounts = [] then 10
      else ((hookWordCounts.sum : ℚ) / (hookWordCounts.length : ℚ))
    brevityZones avgWords

/-- Embeds `hooks.calculate_hook_score`: guard on empty/whitespace input and on
fewer than 4 non-empty lines, then the weighted combination (weights
`config.HOOK_WEIGHTS` = 0.35/0.30/0.20/0.15), rounded and clamped. -/
noncomputable def calculate_hook_score (lyrics : Str) : ℝ :=
  if lyrics = [] ∨ pyStrip lyrics = [] then 0
  else
    let lines := nonEmptyLines lyrics
    if lines.length < 4 then 0
    else
      let score : ℝ :=
        (calculate_repetition_score lyrics : ℝ) * 0.35 * 100 +
        (calculate_phonetic_catchiness lyrics lines : ℝ) * 0.30 * 100 +
        calculate_rhythm_regularity lyrics * 0.20 * 100 +
        (calculate_brevity_score lyrics : ℝ) * 0.15 * 100
      ((min 100 (max 0 (pyRound score)) : ℤ) : ℝ)

/-- The record returned by `hooks.calculate_hook_metrics`. -/
structure HookMetrics where
  hook_score : ℝ
  repetition : ℝ
  catchiness : ℝ
  rhythm_regularity : ℝ
  brevity : ℝ
  chorus_detected : Bool

/-- Embeds `hooks.calculate_hook_metrics`. -/
noncomputable def calculate_hook_metrics (lyrics : Str) : HookMetrics :=
  let lines := nonEmptyLines lyrics
  if lines.length < 4 then ⟨0, 0, 0, 0, 0, false⟩
  else
    let paragraphs := paragraphsOf lyrics
    { hook_score := calculate_hook_score lyrics
      repetition := pyRoundTo 3 (calculate_repetition_score lyrics : ℝ)
      catchiness := pyRoundTo 3 (calculate_phonetic_catchiness lyrics lines : ℝ)
      rhythm_regularity := pyRoundTo 3 (calculate_rhythm_regularity lyrics)
      brevity := pyRoundTo 3 (calculate_brevity_score lyrics : ℝ)
      chorus_detected := countRepeatedAbove 1 (paragraphs.map lowerStr) != 0 }

/-- A 4-line input of single-letter vowel words: average word length 1, so
the uncapped `length_score = 1 - (1 - 4)/6 = 1.5` pushes the catchiness
sub-score above its documented upper bound. -/
def catchLine : Str := ("a e i o u y à â é è ê ï").data

/-- Four copies of `catchLine` (4 non-empty lines). -/
def catchLyrics : Str :=
  catchLine ++ '\n' :: catchLine ++ '\n' :: catchLine ++ '\n' :: catchLine

set_option maxRecDepth 40000 in
lemma catch_facts :
    (runsOf isFrLetter (lowerStr catchLyrics)).length = 48 ∧
    ((runsOf isFrLetter (lowerStr catchLyrics)).map List.length).sum = 48 ∧
    (runsOf isFrLetter (lowerStr catchLyrics)).countP (fun w =>
      match w.getLast? with
      | some c => isCatchyVowel c
      | none => false) = 48 ∧
    (runsOf isPlainConsonant (lowerStr catchLyrics)).countP (fun r => 3 ≤ r.length) = 0 ∧
    ((lowerStr catchLyrics).filter isCatchyVowel).length = 48 ∧
    ((charPairs ((lowerStr catchLyrics).filter isCatchyVowel)).dedup.filter (fun p =>
      2 < (charPairs ((lowerStr catchLyrics).filter isCatchyVowel)).count p)).length = 12 := by
  refine ⟨by decide, by decide, by decide, by decide, by decide, by decide⟩

set_option maxRecDepth 40000 in
lemma catchiness_value :
    calculate_phonetic_catchiness catchLyrics (nonEmptyLines catchLyrics) = 23/20 := by
  obtain ⟨h1, h2, h3, h4, h5, h6⟩ := catch_facts
  simp only [calculate_phonetic_catchiness]
  rw [if_neg (by decide), h1, h2, h3, h4, h5, h6]
  norm_num

/-- C1 (code bug): on a 4-line input of single-letter vowel words the hook
analyzer's phonetic-catchiness sub-score evaluates to 1.15, exceeding the
`(0-1)` range documented in its own docstring — `length_score =
max(0, 1 - (avg_length - 4)/6)` is not capped above for average word
lengths below 4.  The boundedness claim is therefore right about the intent
and the code violates it. -/
theorem hook_catchiness_exceeds_documented_range :
    (nonEmptyLines catchLyrics).length = 4 ∧
    calculate_phonetic_catchiness catchLyrics (nonEmptyLines catchLyrics) = 23/20 ∧
    ¬ calculate_phonetic_catchiness catchLyrics (nonEmptyLines catchLyrics) ≤ 1 := by
  refine ⟨by decide, catchiness_value, ?_⟩
  rw [catchiness_value]
  norm_num

/-- Python `round(x)` on exact rational arithmetic (banker's rounding). -/
def pyRoundQ (x : ℚ) : ℤ :=
  if x - ⌊x⌋ < 1/2 then ⌊x⌋
  else if 1/2 < x - ⌊x⌋ then ⌊x⌋ + 1
  else if ⌊x⌋ % 2 = 0 then ⌊x⌋ else ⌊x⌋ + 1

/-- Python `round(x, nd)` on exact rational arithmetic. -/
def pyRoundToQ (nd : ℕ) (x : ℚ) : ℚ :=
  ((pyRoundQ (x * 10 ^ nd) : ℤ) : ℚ) / 10 ^ nd

/-- The arithmetic of `punchlines._calculate_cultural_hijacking` after its
pattern scans (source lines 480–489): apply the brand penalty
`min(0.4, brand_count/word_count * 15)` per line to the raw
cultural-reference score, normalise per line by the 0.02 benchmark, and
clamp to [0,1]. -/
def cultural_hijacking_core (raw : ℚ) (brandCount wordCount lineCount : ℕ) : ℚ :=
  let score : ℚ :=
    if 0 < wordCount then
      let brandShare : ℚ := (brandCount : ℚ) / (wordCount : ℚ)
      let brandPenalty : ℚ := min 0.4 (brandShare * 15)
      max 0 (raw - brandPenalty * (lineCount : ℚ))
    else raw
  let perLine : ℚ := if 0 < lineCount then score / (lineCount : ℚ) else 0
  min 1 (max 0 (perLine / 0.02))

/-- Embeds `punchlines._calculate_cultural_hijacking`.  The regex scans producing
the cultural-reference raw score (lines 444–464) and the brand-mention
count (lines 468–479) are not embedded; they enter as the `culturalRaw`
and `brandCount` parameters.  `word_count = len(lyrics.split())` and the
line count are taken from the text as in the source. -/
def cultural_hijacking (culturalRaw : Str → List Str → ℚ) (brandCount : Str → ℕ)
    (lyrics : Str) (lines : List Str) : ℚ :=
  cultural_hijacking_core (culturalRaw lyrics lines) (brandCount lyrics)
    (pySplitWs lyrics).length lines.length

/-- Embeds `punchlines.calculate_punchline_score`.  The four pattern-scanning
sub-scores and the two bonus regex counts (fall connectors, personal
references) enter as parameters; the guard clauses, weight table
(0.35/0.25/0.25/0.15), the four capped bonuses, and the final
round-and-clamp are embedded from the source. -/
def calculate_punchline_score (rhetorical wordplay paradox : Str → List Str → ℚ)
    (culturalRaw : Str → List Str → ℚ) (brandCount : Str → ℕ)
    (connectorCount personalCount : Str → ℕ) (lyrics : Str) : ℚ :=
  if lyrics = [] ∨ pyStrip lyrics = [] then 0
  else
    let lines := nonEmptyLines lyrics
    if lines.length < 4 then 0
    else
      let rhet := rhetorical lyrics lines
      let wp := wordplay lyrics lines
      let par := paradox lyrics lines
      let refs := cultural_hijacking culturalRaw brandCount lyrics lines
      let base := rhet * 0.35 * 100 + par * 0.25 * 100 + wp * 0.25 * 100 + refs * 0.15 * 100
      let connectorShare : ℚ := (connectorCount lyrics : ℚ) / (lines.length : ℚ)
      let connectorBonus : ℚ := min 8 (connectorShare * 40)
      let personalShare : ℚ := (personalCount lyrics : ℚ) / (lines.length : ℚ)
      let personalBonus : ℚ := min 5 (personalShare * 10)
      let wordCounts := (lines.filter (fun l => ¬ pyStrip l = [])).map
        (fun l => (pySplitWs l).length)
      let brevityBonus : ℚ :=
        if wordCounts = [] then 0
        else
          let avg : ℚ := (wordCounts.sum : ℚ) / (wordCounts.length : ℚ)
          if 8 ≤ avg ∧ avg ≤ 15 then 5
          else if 6 ≤ avg ∧ avg ≤ 20 then 3
          else 0
      let patternsActive : ℕ :=
        (if 0.3 < rhet then 1 else 0) + (if 0.3 < wp then 1 else 0) +
        (if 0.3 < par then 1 else 0) + (if 0.2 < refs then 1 else 0) +
        (if 0.1 < connectorShare then 1 else 0) + (if 0.2 < personalShare then 1 else 0)
      let comboBonus : ℚ :=
        if 5 ≤ patternsActive then 7
        else if 4 ≤ patternsActive then 5
        else if 3 ≤ patternsActive then 3
        else 0
      let score := base + connectorBonus + personalBonus + brevityBonus + comboBonus
      ((min 100 (max 0 (pyRoundQ score)) : ℤ) : ℚ)

/-- The record returned by `punchlines.calculate_punchline_metrics`. -/
structure PunchlineMetrics where
  punchline_score : ℚ
  rhetorical_devices : ℚ
  wordplay : ℚ
  paradox_philosophy : ℚ
  cultural_refs : ℚ
  slang_density : ℚ

/-- Embeds `punchlines.calculate_punchline_metrics` (the slang-density helper from
`nlp.slang_normalizer` enters as a parameter; no claim depends on it). -/
def calculate_punchline_metrics (rhetorical wordplay paradox : Str → List Str → ℚ)
    (culturalRaw : Str → List Str → ℚ) (brandCount : Str → ℕ)
    (connectorCount personalCount : Str → ℕ) (slangDensity : Str → ℚ)
    (lyrics : Str) : PunchlineMetrics :=
  let lines := nonEmptyLines lyrics
  if lines.length < 4 then ⟨0, 0, 0, 0, 0, 0⟩
  else
    { punchline_score := calculate_punchline_score rhetorical wordplay paradox
        culturalRaw brandCount connectorCount personalCount lyrics
      rhetorical_devices := pyRoundToQ 3 (rhetorical lyrics lines)
      wordplay := pyRoundToQ 3 (wordplay lyrics lines)
      paradox_philosophy := pyRoundToQ 3 (paradox lyrics lines)
      cultural_refs := pyRoundToQ 3 (cultural_hijacking culturalRaw brandCount lyrics lines)
      slang_density := pyRoundToQ 3 (slangDensity lyrics) }

/-- The linguistic-toolkit capabilities consumed by
`vocabulary.calculate_unique_words`: the spaCy lemma extraction, the
optional `lexicalrichness` MTLD measure (with its availability flag
standing in for the import guard and the exception fallback), and the
slang normalisation from `nlp.slang_normalizer`. -/
structure Toolkit where
  uniqueLemmaCount : Str → ℕ
  mtldAvailable : Bool
  mtld : Str → ℚ
  normalizeSlang : Str → Str

/-- Embeds `vocabulary.calculate_unique_words` (with the default
`normalize_verlan=True` path): guard on empty/whitespace input, filter,
normalise slang, count unique lemmas, apply the clamped MTLD diversity
factor when available and the text has at least 100 words, truncate to an
integer and cap at 12000. -/
def calculate_unique_words (tk : Toolkit) (lyrics : Str) : ℤ :=
  if lyrics = [] ∨ pyStrip lyrics = [] then 0
  else
    let text := tk.normalizeSlang (filter_french_text lyrics)
    let raw := tk.uniqueLemmaCount text
    let diversityFactor : ℚ :=
      if tk.mtldAvailable ∧ 100 ≤ (pySplitWs text).length then
        max 0.5 (min 1.5 (tk.mtld text / 80))
      else 1
    min ⌊(raw : ℚ) * diversityFactor⌋ 12000

/-- Embeds `innovation.ARTIST_DEBUT_YEARS`. -/
def ARTIST_DEBUT_YEARS : List (Str × ℕ) := [
  (("booba").data, 1994), (("pnl").data, 2014), (("iam").data, 1989),
  (("nekfeu").data, 2011), (("sch").data, 2015), (("damso").data, 2015),
  (("kery james").data, 1992), (("jul").data, 2013), (("ninho").data, 2016),
  (("freeze corleone").data, 2017), (("rim\x27k").data, 1995),
  (("rohff").data, 1996), (("lino").data, 1996), (("vald").data, 2013),
  (("youssoupha").data, 2007), (("sofiane").data, 2011),
  (("djadja & dinaz").data, 2015), (("dosseh").data, 2010),
  (("flenn").data, 2018), (("ziak").data, 2020), (("hayce lemsi").data, 2012),
  (("sinik").data, 2002), (("guizmo").data, 2010), (("sadek").data, 2008),
  (("bouss").data, 2019), (("kaaris").data, 2012), (("ntm").data, 1989),
  (("oxmo puccino").data, 1996), (("mc solaar").data, 1990),
  (("la fouine").data, 2003), (("lacrim").data, 2008), (("maes").data, 2017),
  (("gazo").data, 2019), (("soprano").data, 1994), (("médine").data, 2004),
  (("kalash criminel").data, 2016), (("seth gueko").data, 2006),
  (("alkpote").data, 2003)]

/-- Embeds `innovation.STYLE_PIONEERS`: style name, pioneer artist, year the style
became mainstream, in dict order. -/
def STYLE_PIONEERS : List (Str × Str × ℕ) := [
  (("melodic_marseille").data, ("jul").data, 2016),
  (("cloud_rap_fr").data, ("pnl").data, 2016),
  (("drill_fr").data, ("freeze corleone").data, 2020),
  (("ego_trip_hardcore").data, ("booba").data, 2002),
  (("boom_bap_conscious").data, ("iam").data, 1997),
  (("afro_trap").data, ("ninho").data, 2018),
  (("trap_melodique").data, ("damso").data, 2017),
  (("melo_rap").data, ("soprano").data, 2016)]

/-- Embeds `influence.ARTIST_DATA`: debut year, album count, certification count. -/
def ARTIST_DATA : List (Str × ℕ × ℕ × ℕ) := [
  (("booba").data, 1994, 10, 145), (("pnl").data, 2014, 4, 95),
  (("iam").data, 1989, 9, 85), (("nekfeu").data, 2011, 5, 85),
  (("sch").data, 2015, 6, 78), (("damso").data, 2015, 5, 72),
  (("kery james").data, 1992, 8, 45), (("jul").data, 2013, 18, 120),
  (("ninho").data, 2016, 6, 95), (("freeze corleone").data, 2017, 3, 28),
  (("rim\x27k").data, 1995, 7, 42), (("rohff").data, 1996, 8, 38),
  (("lino").data, 1996, 5, 28), (("vald").data, 2013, 5, 48),
  (("youssoupha").data, 2007, 6, 32), (("sofiane").data, 2011, 5, 35),
  (("djadja & dinaz").data, 2015, 5, 55), (("dosseh").data, 2010, 4, 25),
  (("flenn").data, 2018, 2, 8), (("ziak").data, 2020, 2, 22),
  (("hayce lemsi").data, 2012, 4, 12), (("sinik").data, 2002, 6, 22),
  (("guizmo").data, 2010, 5, 18), (("sadek").data, 2008, 5, 22),
  (("bouss").data, 2019, 2, 8), (("kaaris").data, 2012, 8, 32),
  (("ntm").data, 1989, 4, 65), (("oxmo puccino").data, 1996, 9, 35),
  (("mc solaar").data, 1990, 8, 80), (("la fouine").data, 2003, 8, 55),
  (("lacrim").data, 2008, 7, 48), (("maes").data, 2017, 4, 65),
  (("gazo").data, 2019, 3, 42), (("soprano").data, 1994, 8, 85),
  (("médine").data, 2004, 8, 18), (("kalash criminel").data, 2016, 4, 32),
  (("seth gueko").data, 2006, 7, 22), (("alkpote").data, 2003, 8, 15)]

/-- Embeds `artist_id.lower().replace("-", " ").replace("_", " ")`, the key
normalisation shared by both lookups. -/
def normalizeArtistKey (artist_id : Str) : Str :=
  (lowerStr artist_id).map (fun c => if c = '-' ∨ c = '_' then ' ' else c)

/-- Python `table.get(key)` for an association list. -/
def lookupStr {α : Type} (table : List (Str × α)) (key : Str) : Option α :=
  (table.find? (fun e => e.1 == key)).map Prod.snd

/-- Embeds `InnovationAnalyzer.calculate_first_mover_score`: base 30 for unknown
(or falsy) debut years, else base 30 plus a pioneer bonus
`min(50, years_ahead * 15)` for the first style pioneered by the artist
and a longevity bonus `min(20, (2024 - debut)/2)`, capped at 100. -/
def calculate_first_mover_score (artist_id : Str) : ℚ :=
  let key := normalizeArtistKey artist_id
  match lookupStr ARTIST_DEBUT_YEARS key with
  | none => 30
  | some debut =>
    if debut = 0 then 30
    else
      let pioneerBonus : ℚ :=
        match STYLE_PIONEERS.find? (fun e => e.2.1 == key) with
        | some e => min 50 ((((e.2.2 : ℤ) - (debut : ℤ) : ℤ) : ℚ) * 15)
        | none => 0
      let longevityBonus : ℚ := min 20 ((((2024 - (debut : ℤ) : ℤ)) : ℚ) / 2)
      min 100 (30 + pioneerBonus + longevityBonus)

/-- Embeds `InfluenceAnalyzer.calculate_charts_efficiency`: flat 40 for unknown
artists, else certifications per album (floored at one album), a 1.3×
volume bonus for ten or more albums, normalised against the 20
certs-per-album benchmark and clamped.  (The source computes
`career_years` but never uses it.) -/
def calculate_charts_efficiency (artist_id : Str) : ℚ :=
  let key := normalizeArtistKey artist_id
  match lookupStr ARTIST_DATA key with
  | none => 40
  | some d =>
    let albums := max 1 d.2.1
    let certs := d.2.2
    let efficiency : ℚ := (certs : ℚ) / (albums : ℚ)
    let efficiency := if 10 ≤ albums then efficiency * 1.3 else efficiency
    max 0 (min 100 (efficiency / 20 * 100))

lemma dominantTheme_street (d : Theme → ℚ) (h : ∀ t, d t ≤ d Theme.street) :
    dominantTheme d = Theme.street := by
  unfold dominantTheme
  simp only [themesList, List.tail, List.foldl]
  split_ifs <;>
    first
      | rfl
      | (exfalso; exact absurd (h _) (not_le.mpr (by assumption)))

/-- Concrete input for C3: a single line holding one hundred occurrences of
the street-theme keyword "rue". -/
def rue100 : Str := joinWithSpace (List.replicate 100 (("rue").data))

/-- Concrete input for C7: one line with fifty occurrences of "rue"
(street) and fifty of "argent" (money). -/
def mix50 : Str :=
  joinWithSpace (List.replicate 50 (("rue").data) ++ List.replicate 50 (("argent").data))

/-- Concrete input for C6's witness: one hundred occurrences of the
keyword-free word "a". -/
def neutral100 : Str := joinWithSpace (List.replicate 100 (("a").data))

set_option maxRecDepth 40000 in
lemma rue100_counts :
    rue100 ≠ [] ∧ (themeWords rue100).length = 100 ∧
    themeCount rue100 Theme.street = 100 ∧ themeCount rue100 Theme.money = 0 ∧
    themeCount rue100 Theme.love = 0 ∧ themeCount rue100 Theme.party = 0 ∧
    themeCount rue100 Theme.conscious = 0 ∧
    themeCount rue100 Theme.spiritual = 0 ∧ themeCount rue100 Theme.ego = 0 := by
  refine ⟨by decide, by decide, by decide, by decide, by decide, by decide,
    by decide, by decide, by decide⟩

set_option maxRecDepth 40000 in
lemma rue100_dist :
    ∀ t, detect_themes rue100 t = if t = Theme.street then 1 else 0 := by
  obtain ⟨h0, hlen, hs, hm, hl, hp, hc, hsp, he⟩ := rue100_counts
  intro t
  unfold detect_themes
  rw [if_neg h0, if_neg (by rw [hlen]; norm_num)]
  simp only [themesList, List.foldl, hs, hm, hl, hp, hc, hsp, he]
  norm_num
  cases t <;> simp [hs, hm, hl, hp, hc, hsp, he]

lemma entropy_all_on_street (dist : Theme → ℚ)
    (hs : dist Theme.street = 1) (hm : dist Theme.money = 0)
    (hl : dist Theme.love = 0) (hp : dist Theme.party = 0)
    (hc : dist Theme.conscious = 0) (hsp : dist Theme.spiritual = 0)
    (he : dist Theme.ego = 0) : calculate_entropy dist = 0 := by
  unfold calculate_entropy
  rw [if_pos (Real.logb_pos (by norm_num) (by norm_num))]
  simp only [themesList, List.foldl, hs, hm, hl, hp, hc, hsp, he]
  norm_num

lemma rue100_coherence : (calculate_coherence_score rue100).coherence_score = 100 := by
  have hd := rue100_dist
  unfold calculate_coherence_score
  have hdom : dominantTheme (detect_themes rue100) = Theme.street := by
    refine dominantTheme_street _ fun t => ?_
    rw [hd t, hd Theme.street]
    cases t <;> split <;> norm_num
  have hent : calculate_entropy (detect_themes rue100) = 0 := by
    refine entropy_all_on_street _ ?_ ?_ ?_ ?_ ?_ ?_ ?_ <;> simp [hd]
  simp only [hdom, hent, hd Theme.street]
  norm_num

set_option maxRecDepth 40000 in
lemma mix50_counts :
    mix50 ≠ [] ∧ (themeWords mix50).length = 100 ∧
    themeCount mix50 Theme.street = 50 ∧ themeCount mix50 Theme.money = 50 ∧
    themeCount mix50 Theme.love = 0 ∧ themeCount mix50 Theme.party = 0 ∧
    themeCount mix50 Theme.conscious = 0 ∧
    themeCount mix50 Theme.spiritual = 0 ∧ themeCount mix50 Theme.ego = 0 := by
  refine ⟨by decide, by decide, by decide, by decide, by decide, by decide,
    by decide, by decide, by decide⟩

set_option maxRecDepth 40000 in
lemma mix50_dist :
    ∀ t, detect_themes mix50 t =
      if t = Theme.street ∨ t = Theme.money then 1/2 else 0 := by
  obtain ⟨h0, hlen, hs, hm, hl, hp, hc, hsp, he⟩ := mix50_counts
  intro t
  unfold detect_themes
  rw [if_neg h0, if_neg (by rw [hlen]; norm_num)]
  simp only [themesList, List.foldl, hs, hm, hl, hp, hc, hsp, he]
  norm_num
  cases t <;> simp [hs, hm, hl, hp, hc, hsp, he] <;> norm_num

lemma entropy_half_half (dist : Theme → ℚ)
    (hs : dist Theme.street = 1/2) (hm : dist Theme.money = 1/2)
    (hl : dist Theme.love = 0) (hp : dist Theme.party = 0)
    (hc : dist Theme.conscious = 0) (hsp : dist Theme.spiritual = 0)
    (he : dist Theme.ego = 0) :
    calculate_entropy dist = 1 / Real.logb 2 7 := by
  unfold calculate_entropy
  rw [if_pos (Real.logb_pos (by norm_num) (by norm_num))]
  simp only [themesList, List.foldl, hs, hm, hl, hp, hc, hsp, he]
  have h2 : Real.logb 2 ((1:ℝ)/2) = -1 := by
    rw [one_div, Real.logb_inv, Real.logb_self_eq_one (by norm_num)]
  norm_num [h2]

lemma one_lt_logb_two_seven : 1 < Real.logb 2 7 := by
  have h := Real.logb_lt_logb (b := 2) (by norm_num) (by norm_num : (0:ℝ) < 2)
    (by norm_num : (2:ℝ) < 7)
  rwa [Real.logb_self_eq_one (by norm_num)] at h

lemma mix50_coherence_fields :
    (calculate_coherence_score mix50).dominant_theme_weight = 1/2 ∧
    (calculate_coherence_score mix50).theme_entropy = 1 / Real.logb 2 7 ∧
    (calculate_coherence_score mix50).coherence_score =
      100 - 50 * (1 / Real.logb 2 7) := by
  have hd := mix50_dist
  have hdom : dominantTheme (detect_themes mix50) = Theme.street := by
    refine dominantTheme_street _ fun t => ?_
    rw [hd t, hd Theme.street]
    cases t <;> split <;> norm_num
  have hent : calculate_entropy (detect_themes mix50) = 1 / Real.logb 2 7 := by
    refine entropy_half_half _ ?_ ?_ ?_ ?_ ?_ ?_ ?_ <;> simp [hd]
  have hL := one_lt_logb_two_seven
  have hLpos : (0:ℝ) < Real.logb 2 7 := by linarith
  have hepos : (0:ℝ) < 1 / Real.logb 2 7 := by positivity
  have helt : (1:ℝ) / Real.logb 2 7 < 1 := by
    rw [div_lt_one hLpos]; exact hL
  have hw : detect_themes mix50 Theme.street = 1/2 := by
    rw [hd]; norm_num
  unfold calculate_coherence_score
  simp only [hdom, hent, hw]
  refine ⟨trivial, trivial, ?_⟩
  have hcast : (((1:ℚ)/2 : ℚ) : ℝ) = 1/2 := by push_cast; ring
  rw [hcast, max_eq_right (by nlinarith), min_eq_right (by nlinarith)]
  ring

/-- C3 (counterexample): a single non-empty line containing one hundred
"rue" tokens has fewer than 4 non-empty lines, yet the Thematic analyzer
does not return its zero-state record: its coherence score is 100.  The
Thematic guard is a 100-token minimum, not a 4-line minimum. -/
theorem thematic_nonzero_below_four_lines_cex :
    (nonEmptyLines rue100).length < 4 ∧
    (calculate_coherence_score rue100).coherence_score = 100 ∧
    (calculate_coherence_score rue100).coherence_score ≠ 0 := by
  refine ⟨?_, rue100_coherence, by rw [rue100_coherence]; norm_num⟩
  set_option maxRecDepth 40000 in decide

/-- C6 (counterexample): the single-word lyrics "bonjour" contain no theme
keyword at all, yet `detect_themes` returns the all-zero distribution, not
the uniform `1/7` distribution — the uniform fallback is only reached for
inputs of at least 100 filtered tokens. -/
theorem detect_themes_no_keywords_zero_cex :
    (∀ t, themeCount (("bonjour").data) t = 0) ∧
    detect_themes (("bonjour").data) = (fun _ => 0) ∧
    detect_themes (("bonjour").data) ≠ fun _ => (1:ℚ)/7 := by
  refine ⟨by decide, by decide, ?_⟩
  intro h
  have h2 : detect_themes (("bonjour").data) = (fun _ => 0) := by decide
  rw [h2] at h
  have := congrFun h Theme.street
  norm_num at this

/-- C6 (amended): whenever the filtered token list has at least 100 entries
and no theme keyword occurs in it, `detect_themes` returns the uniform
distribution giving each of the 7 themes weight 1/7.  (For shorter inputs
the all-zero distribution is returned instead, as the counterexample
shows.) -/
theorem detect_themes_uniform_when_no_keywords (lyrics : Str)
    (hlen : 100 ≤ (themeWords lyrics).length)
    (hnone : ∀ t, themeCount lyrics t = 0) :
    detect_themes lyrics = fun _ => (1:ℚ)/7 := by
  have hne : lyrics ≠ [] := by
    intro h
    subst h
    revert hlen
    decide
  unfold detect_themes
  rw [if_neg hne, if_neg (by omega)]
  simp only [themesList, List.foldl, hnone]
  norm_num

/-- C6 (witness): one hundred occurrences of "a" trigger the uniform
fallback. -/
theorem detect_themes_uniform_when_no_keywords_witness :
    (100 ≤ (themeWords neutral100).length ∧ ∀ t, themeCount neutral100 t = 0) ∧
    detect_themes neutral100 = fun _ => (1:ℚ)/7 := by
  have h1 : 100 ≤ (themeWords neutral100).length := by
    set_option maxRecDepth 40000 in decide
  have h2 : ∀ t, themeCount neutral100 t = 0 := by
    set_option maxRecDepth 40000 in decide
  exact ⟨⟨h1, h2⟩, detect_themes_uniform_when_no_keywords neutral100 h1 h2⟩

/-- C7 (amended): the thematic coherence score equals the dominant weight
times `(1 - 0.5 * normalized entropy)`, multiplied by 100, then doubled and
clamped to `[0, 100]` — the code multiplies the scaled value by 2 before
clamping, so it is not simply the `[0,1]` value rescaled to `[0,100]`. -/
theorem coherence_score_formula (lyrics : Str) :
    (calculate_coherence_score lyrics).coherence_score =
      min 100 (max 0 (((calculate_coherence_score lyrics).dominant_theme_weight : ℝ)
        * 100 * (1 - (calculate_coherence_score lyrics).theme_entropy * 0.5) * 2)) :=
  rfl

/-- C7 (counterexample): on fifty "rue" plus fifty "argent" tokens the
dominant weight is 1/2 and the normalized entropy is `1/log2 7`, and the
returned coherence score `100 - 50/log2 7` differs from
`weight * 100 * (1 - entropy/2) = 50 - 25/log2 7` — the claimed [0,100]
scaling is off by the code's extra factor of 2. -/
theorem coherence_formula_cex :
    (calculate_coherence_score mix50).coherence_score ≠
      ((calculate_coherence_score mix50).dominant_theme_weight : ℝ) * 100 *
        (1 - (calculate_coherence_score mix50).theme_entropy * 0.5) := by
  obtain ⟨hw, he, hs⟩ := mix50_coherence_fields
  rw [hw, he, hs]
  have hL := one_lt_logb_two_seven
  have hLpos : (0:ℝ) < Real.logb 2 7 := by linarith
  have helt : (1:ℝ) / Real.logb 2 7 < 1 := by
    rw [div_lt_one hLpos]; exact hL
  have hcast : (((1:ℚ)/2 : ℚ) : ℝ) = 1/2 := by push_cast; ring
  rw [hcast]
  intro h
  nlinarith [h]

lemma pyStrip_eq_nil_iff (s : Str) : pyStrip s = [] ↔ ∀ c ∈ s, isPySpace c = true := by
  unfold pyStrip
  rw [List.reverse_eq_nil_iff, List.dropWhile_eq_nil_iff]
  constructor
  · intro h c hc
    by_cases hd : c ∈ s.dropWhile isPySpace
    · exact h c (by simpa using List.mem_reverse.mpr hd)
    · have hsplit := List.takeWhile_append_dropWhile (p := isPySpace) (l := s)
      have : c ∈ s.takeWhile isPySpace := by
        rw [← hsplit] at hc
        rcases List.mem_append.mp hc with h1 | h1
        · exact h1
        · exact absurd h1 hd
      exact List.mem_takeWhile_imp this
  · intro h c hc
    exact h c (List.dropWhile_sublist (p := isPySpace) (l := s) |>.mem
      (List.mem_reverse.mp hc))

lemma frLower_space {c : Char} (h : isPySpace c = true) : frLower c = c := by
  simp only [isPySpace, Bool.or_eq_true, beq_iff_eq] at h
  rcases h with ((((h | h) | h) | h) | h) | h <;> subst h <;> decide

lemma foldr_runs_all {p : Char → Bool} :
    ∀ {s : Str}, s ≠ [] → (∀ c ∈ s, p c = true) →
      s.foldr (runsOfAux p) ([], false) = ([s], true)
  | [], h, _ => absurd rfl h
  | a :: t, _, h => by
    by_cases ht : t = []
    · subst ht
      simp [runsOfAux, h a (by simp)]
    · have ih := foldr_runs_all ht (fun c hc => h c (List.mem_cons_of_mem _ hc))
      simp only [List.foldr] at ih ⊢
      rw [ih]
      rcases t with _ | ⟨b, u⟩
      · exact absurd rfl ht
      · simp [runsOfAux, h a (by simp)]

lemma runsOf_eq_nil {p : Char → Bool} :
    ∀ {s : Str}, (∀ c ∈ s, p c = false) → runsOf p s = []
  | [], _ => rfl
  | a :: t, h => by
    have ih := runsOf_eq_nil (p := p) (fun c hc => h c (List.mem_cons_of_mem _ hc))
    simp only [runsOf, List.foldr] at ih ⊢
    simp [runsOfAux, h a (by simp), ih]

lemma themeWords_of_space {s : Str} (h : ∀ c ∈ s, isPySpace c = true) :
    themeWords s = [] := by
  by_cases hs : s = []
  · subst hs; decide
  · have hls : ∀ c ∈ lowerStr s, isPySpace c = true := by
      intro c hc
      rcases List.mem_map.mp hc with ⟨a, ha, rfl⟩
      rw [frLower_space (h a ha)]
      exact h a ha
    have hall : ∀ c ∈ lowerStr s, isFilterAllowed c = true := by
      intro c hc
      have := hls c hc
      simp [isFilterAllowed, this]
    have hne : lowerStr s ≠ [] := by
      simp [lowerStr, hs]
    have hfil : filter_french_text (lowerStr s) = lowerStr s := by
      unfold filter_french_text runsOf
      rw [foldr_runs_all hne hall]
      rfl
    unfold themeWords pySplitWs
    rw [hfil]
    exact runsOf_eq_nil (fun c hc => by simp [hls c hc])

lemma detect_themes_of_space {s : Str} (h : pyStrip s = []) :
    detect_themes s = fun _ => 0 := by
  by_cases hs : s = []
  · subst hs
    simp [detect_themes]
  · unfold detect_themes
    rw [if_neg hs, if_pos]
    rw [themeWords_of_space ((pyStrip_eq_nil_iff s).mp h)]
    norm_num

lemma entropy_zero_dist : calculate_entropy (fun _ => 0) = 0 := by
  unfold calculate_entropy
  rw [if_pos (Real.logb_pos (by norm_num) (by norm_num))]
  norm_num [themesList, List.foldl]

lemma coherence_zero_of_space {s : Str} (h : pyStrip s = []) :
    (calculate_coherence_score s).coherence_score = 0 := by
  have hd := detect_themes_of_space h
  unfold calculate_coherence_score
  simp only [hd, entropy_zero_dist]
  norm_num

/-- C8: on the empty string and on every whitespace-only string, the
lyrics-consuming analyzers return their zero results without error: Flow,
Hook and Punchline scores are 0, the vocabulary unique-word count is 0
(whatever the linguistic toolkit does, since the guard precedes its use),
and the Thematic coherence score is 0. -/
theorem whitespace_input_zero_scores
    (rhetorical wordplay paradox culturalRaw : Str → List Str → ℚ)
    (brandCount connectorCount personalCount : Str → ℕ) (tk : Toolkit)
    (s : Str) (h : pyStrip s = []) :
    calculate_flow_score s = 0 ∧ calculate_hook_score s = 0 ∧
    calculate_punchline_score rhetorical wordplay paradox culturalRaw brandCount
      connectorCount personalCount s = 0 ∧
    calculate_unique_words tk s = 0 ∧
    (calculate_coherence_score s).coherence_score = 0 := by
  refine ⟨?_, ?_, ?_, ?_, coherence_zero_of_space h⟩
  · unfold calculate_flow_score
    rw [if_pos (Or.inr h)]
  · unfold calculate_hook_score
    rw [if_pos (Or.inr h)]
  · unfold calculate_punchline_score
    rw [if_pos (Or.inr h)]
  · unfold calculate_unique_words
    rw [if_pos (Or.inr h)]

/-- C8 (witness): the one-space string, with arbitrary concrete values for
the abstracted sub-scores and toolkit. -/
theorem whitespace_input_zero_scores_witness :
    pyStrip ((" ").data) = [] ∧
    (calculate_flow_score ((" ").data) = 0 ∧
     calculate_hook_score ((" ").data) = 0 ∧
     calculate_punchline_score (fun _ _ => 0) (fun _ _ => 0) (fun _ _ => 0)
       (fun _ _ => 0) (fun _ => 0) (fun _ => 0) (fun _ => 0) ((" ").data) = 0 ∧
     calculate_unique_words ⟨fun _ => 0, false, fun _ => 0, fun t => t⟩ ((" ").data) = 0 ∧
     (calculate_coherence_score ((" ").data)).coherence_score = 0) :=
  ⟨by decide,
   whitespace_input_zero_scores (fun _ _ => 0) (fun _ _ => 0) (fun _ _ => 0)
     (fun _ _ => 0) (fun _ => 0) (fun _ => 0) (fun _ => 0)
     ⟨fun _ => 0, false, fun _ => 0, fun t => t⟩ ((" ").data) (by decide)⟩

/-- C3 (amended): for every input with fewer than 4 non-empty lines, the
Flow, Hook and Punchline analyzers return their documented zero-state
records exactly (score 0 and all-zero metric records); the Vocabulary and
Thematic analyzers use different minimum-input guards (non-blank input,
100 filtered tokens) and can return non-zero values on such inputs, as the
counterexample shows. -/
theorem short_input_zero_state_flow_hook_punchline
    (rhetorical wordplay paradox culturalRaw : Str → List Str → ℚ)
    (brandCount connectorCount personalCount : Str → ℕ) (slangDensity : Str → ℚ)
    (s : Str) (h : (nonEmptyLines s).length < 4) :
    calculate_flow_score s = 0 ∧
    calculate_flow_metrics s = ⟨0, 0, 0, 0, 0, 0⟩ ∧
    calculate_hook_score s = 0 ∧
    calculate_hook_metrics s = ⟨0, 0, 0, 0, 0, false⟩ ∧
    calculate_punchline_score rhetorical wordplay paradox culturalRaw brandCount
      connectorCount personalCount s = 0 ∧
    calculate_punchline_metrics rhetorical wordplay paradox culturalRaw brandCount
      connectorCount personalCount slangDensity s = ⟨0, 0, 0, 0, 0, 0⟩ := by
  refine ⟨?_, ?_, ?_, ?_, ?_, ?_⟩
  · unfold calculate_flow_score
    by_cases hw : s = [] ∨ pyStrip s = []
    · rw [if_pos hw]
    · rw [if_neg hw]
      simp only [if_pos h]
  · unfold calculate_flow_metrics
    simp only [if_pos h]
  · unfold calculate_hook_score
    by_cases hw : s = [] ∨ pyStrip s = []
    · rw [if_pos hw]
    · rw [if_neg hw]
      simp only [if_pos h]
  · unfold calculate_hook_metrics
    simp only [if_pos h]
  · unfold calculate_punchline_score
    by_cases hw : s = [] ∨ pyStrip s = []
    · rw [if_pos hw]
    · rw [if_neg hw]
      simp only [if_pos h]
  · unfold calculate_punchline_metrics
    simp only [if_pos h]

/-- C3 (witness): a single-line input. -/
theorem short_input_zero_state_flow_hook_punchline_witness :
    (nonEmptyLines (("victoire").data)).length < 4 ∧
    (calculate_flow_score (("victoire").data) = 0 ∧
     calculate_flow_metrics (("victoire").data) = ⟨0, 0, 0, 0, 0, 0⟩ ∧
     calculate_hook_score (("victoire").data) = 0 ∧
     calculate_hook_metrics (("victoire").data) = ⟨0, 0, 0, 0, 0, false⟩ ∧
     calculate_punchline_score (fun _ _ => 0) (fun _ _ => 0) (fun _ _ => 0)
       (fun _ _ => 0) (fun _ => 0) (fun _ => 0) (fun _ => 0) (("victoire").data) = 0 ∧
     calculate_punchline_metrics (fun _ _ => 0) (fun _ _ => 0) (fun _ _ => 0)
       (fun _ _ => 0) (fun _ => 0) (fun _ => 0) (fun _ => 0) (fun _ => 0)
       (("victoire").data) = ⟨0, 0, 0, 0, 0, 0⟩) := by
  refine ⟨by decide, ?_⟩
  exact short_input_zero_state_flow_hook_punchline (fun _ _ => 0) (fun _ _ => 0)
    (fun _ _ => 0) (fun _ _ => 0) (fun _ => 0) (fun _ => 0) (fun _ => 0)
    (fun _ => 0) (("victoire").data) (by decide)

/-- C9: for every artist identifier whose normalised key is absent from the
static tables, the first-mover score is the flat base default 30 and the
charts-efficiency score is the flat mid-range default 40. -/
theorem unknown_artist_default_scores (artist_id : Str)
    (h1 : lookupStr ARTIST_DEBUT_YEARS (normalizeArtistKey artist_id) = none)
    (h2 : lookupStr ARTIST_DATA (normalizeArtistKey artist_id) = none) :
    calculate_first_mover_score artist_id = 30 ∧
    calculate_charts_efficiency artist_id = 40 := by
  constructor
  · unfold calculate_first_mover_score
    simp only [h1]
  · unfold calculate_charts_efficiency
    simp only [h2]

/-- C9 (witness): the identifier "niska" is in neither table. -/
theorem unknown_artist_default_scores_witness :
    (lookupStr ARTIST_DEBUT_YEARS (normalizeArtistKey (("niska").data)) = none ∧
     lookupStr ARTIST_DATA (normalizeArtistKey (("niska").data)) = none) ∧
    (calculate_first_mover_score (("niska").data) = 30 ∧
     calculate_charts_efficiency (("niska").data) = 40) :=
  ⟨⟨by decide, by decide⟩,
   unknown_artist_default_scores (("niska").data) (by decide) (by decide)⟩

lemma brandPenalty_mono (b w k m : ℕ) (hw : 1 ≤ w) (hk : 1 ≤ k)
    (hkm : k ≤ m) (hm2 : m ≤ 2 * k) :
    min (0.4 : ℚ) ((b : ℚ) / (w : ℚ) * 15) ≤
      min 0.4 (((b : ℚ) + (k : ℚ)) / ((w : ℚ) + (m : ℚ)) * 15) := by
  have hw0 : (0 : ℚ) < w := by exact_mod_cast hw
  have hk0 : (0 : ℚ) < k := by exact_mod_cast hk
  have hm0 : (0 : ℚ) < m := by
    have : (1 : ℕ) ≤ m := le_trans hk hkm
    exact_mod_cast this
  have hmk : (m : ℚ) ≤ 2 * k := by exact_mod_cast hm2
  have hwm0 : (0 : ℚ) < (w : ℚ) + m := by positivity
  rcases le_or_lt ((b : ℚ) / w) (((b : ℚ) + k) / ((w : ℚ) + m)) with hle | hlt
  · refine min_le_min le_rfl ?_
    nlinarith
  · have hb0 : (0 : ℚ) ≤ b := by positivity
    have hx : ((b : ℚ) + k) * w < b * ((w : ℚ) + m) :=
      (div_lt_div_iff₀ hwm0 hw0).mp hlt
    have hkw : (k : ℚ) * w < b * m := by nlinarith
    have hb : (0 : ℚ) < b := by nlinarith
    have hw2b : (w : ℚ) < 2 * b := by nlinarith
    have hq : (1 : ℚ) / 2 < ((b : ℚ) + k) / ((w : ℚ) + m) := by
      rw [div_lt_div_iff₀ (by norm_num) hwm0]
      nlinarith
    have hq15 : (0.4 : ℚ) ≤ ((b : ℚ) + k) / ((w : ℚ) + m) * 15 := by nlinarith
    have hp15 : (0.4 : ℚ) ≤ (b : ℚ) / w * 15 := by nlinarith
    rw [min_eq_left hp15, min_eq_left hq15]

/-- C5: holding the cultural-reference raw score, the line count and the
rest of the text fixed, adding `k ≥ 1` brand mentions never increases the
cultural-hijacking sub-score.  Each brand-pattern match spans one or two
whitespace-separated words ("Louis Vuitton" and "Richard Mille" are the
only two-word brands), so `k` added mentions add `m` words with
`k ≤ m ≤ 2k`. -/
theorem cultural_hijacking_brand_monotone (raw : ℚ) (b w L k m : ℕ)
    (hw : 1 ≤ w) (hk : 1 ≤ k) (hkm : k ≤ m) (hm2 : m ≤ 2 * k) :
    cultural_hijacking_core raw (b + k) (w + m) L ≤
      cultural_hijacking_core raw b w L := by
  have hpen := brandPenalty_mono b w k m hw hk hkm hm2
  unfold cultural_hijacking_core
  dsimp only
  rw [if_pos (by omega : 0 < w + m), if_pos (by omega : 0 < w)]
  have hcast1 : (((b + k : ℕ)) : ℚ) = (b : ℚ) + k := by push_cast; ring
  have hcast2 : (((w + m : ℕ)) : ℚ) = (w : ℚ) + m := by push_cast; ring
  rw [hcast1, hcast2]
  by_cases hL : 0 < L
  · rw [if_pos hL, if_pos hL]
    have hL0 : (0 : ℚ) < L := by exact_mod_cast hL
    gcongr
  · rw [if_neg hL, if_neg hL]

/-- C5 (witness): adding one single-word brand mention to a text of ten
words and four lines with raw cultural score 1. -/
theorem cultural_hijacking_brand_monotone_witness :
    ((1 : ℕ) ≤ 10 ∧ (1 : ℕ) ≤ 1 ∧ (1 : ℕ) ≤ 1 ∧ (1 : ℕ) ≤ 2 * 1) ∧
    cultural_hijacking_core 1 (0 + 1) (10 + 1) 4 ≤ cultural_hijacking_core 1 0 10 4 :=
  ⟨⟨by norm_num, by norm_num, by norm_num, by norm_num⟩,
   cultural_hijacking_brand_monotone 1 0 10 4 1 1 (by norm_num) (by norm_num)
     (by norm_num) (by norm_num)⟩

/-- C4: `rhymes_with(a, b, s)` is true exactly when the two phonetic endings
at depth `s` are equal and non-empty; in particular "victoire" and "histoire"
share the ending of the "-oire" pattern at strictness 3, so they rhyme. -/
theorem rhymes_with_iff_phonetic_endings_equal :
    (∀ a b s, rhymes_with a b s = true ↔
      (get_phonetic_ending a s = get_phonetic_ending b s ∧
       get_phonetic_ending a s ≠ [])) ∧
    get_phonetic_ending ("victoire").data 3 = get_phonetic_ending ("histoire").data 3 ∧
    rhymes_with ("victoire").data ("histoire").data 3 = true := by
  refine ⟨fun a b s => ?_, by decide, by decide⟩
  simp [rhymes_with, Bool.and_eq_true, beq_iff_eq, Bool.not_eq_true']

/-- C2 (counterexample): "vraiment" takes the RHYME_PATTERNS path (suffix
"-ment" → "mɑ̃", independent of depth) while "barman" takes the g2p fallback
path (g2p "barmɑ̃", last `depth` symbols).  They rhyme at strictness 3 but not
at strictness 2 or 1, so raising strictness is not monotone. -/
theorem rhymes_strictness_not_monotone_cex :
    rhymes_with ("vraiment").data ("barman").data 3 = true ∧
    rhymes_with ("vraiment").data ("barman").data 2 = false ∧
    rhymes_with ("vraiment").data ("barman").data 1 = false := by
  refine ⟨by decide, by decide, by decide⟩

/-- C2 (amended): the strictness monotonicity `rhymes(a,b,3) →
rhymes(a,b,2) ∧ rhymes(a,b,1)` holds whenever the two words are on the same
lookup path of `get_phonetic_ending` — either both match a RHYME_PATTERNS
suffix (the ending then ignores depth) or neither does (the ending is then a
suffix of a depth-independent source string).  Mixed-path pairs can violate
it, as the counterexample shows. -/
theorem rhymes_strictness_monotone_same_path (a b : Str)
    (hpath : (firstRhymePattern (pyStrip (lowerStr a))).isSome =
             (firstRhymePattern (pyStrip (lowerStr b))).isSome)
    (h3 : rhymes_with a b 3 = true) :
    rhymes_with a b 2 = true ∧ rhymes_with a b 1 = true := by
  have hiff : ∀ n, rhymes_with a b n = true ↔
      (get_phonetic_ending a n = get_phonetic_ending b n ∧
       get_phonetic_ending a n ≠ []) := by
    intro n
    simp [rhymes_with, Bool.and_eq_true, beq_iff_eq, Bool.not_eq_true']
  rw [hiff] at h3
  rw [hiff 2, hiff 1]
  rcases ha : firstRhymePattern (pyStrip (lowerStr a)) with _ | pha
  · rcases hb : firstRhymePattern (pyStrip (lowerStr b)) with _ | phb
    · have hea := ending_of_fallback ha
      have heb := ending_of_fallback hb
      rw [hea 3, heb 3] at h3
      have hsrc3 : pyLastN 3 (endingSource a) = pyLastN 3 (endingSource b) := h3.1
      have hna : endingSource a ≠ [] := by
        intro hnil
        apply h3.2
        rw [hnil]
        simp [pyLastN]
      constructor
      · refine ⟨?_, ?_⟩
        · rw [hea 2, heb 2, ← pyLastN_pyLastN (by omega) (by omega : 2 ≤ 3)
            (endingSource a), hsrc3,
            pyLastN_pyLastN (by omega) (by omega : 2 ≤ 3)]
        · rw [hea 2]
          exact fun h => hna ((pyLastN_eq_nil_iff (by omega) _).mp h)
      · refine ⟨?_, ?_⟩
        · rw [hea 1, heb 1, ← pyLastN_pyLastN (by omega) (by omega : 1 ≤ 3)
            (endingSource a), hsrc3,
            pyLastN_pyLastN (by omega) (by omega : 1 ≤ 3)]
        · rw [hea 1]
          exact fun h => hna ((pyLastN_eq_nil_iff (by omega) _).mp h)
    · rw [ha, hb] at hpath; simp at hpath
  · rcases hb : firstRhymePattern (pyStrip (lowerStr b)) with _ | phb
    · rw [ha, hb] at hpath; simp at hpath
    · have hea := ending_of_pattern ha
      have heb := ending_of_pattern hb
      rw [hea 3, heb 3] at h3
      exact ⟨by rw [hea 2, heb 2]; exact h3, by rw [hea 1, heb 1]; exact h3⟩

/-- C2 (witness): "victoire" and "histoire" are both on the pattern path and
rhyme at strictness 3, hence also at strictness 2 and 1. -/
theorem rhymes_strictness_monotone_same_path_witness :
    (firstRhymePattern (pyStrip (lowerStr ("victoire").data))).isSome =
      (firstRhymePattern (pyStrip (lowerStr ("histoire").data))).isSome ∧
    rhymes_with ("victoire").data ("histoire").data 3 = true ∧
    (rhymes_with ("victoire").data ("histoire").data 2 = true ∧
     rhymes_with ("victoire").data ("histoire").data 1 = true) :=
  ⟨by decide, by decide,
   rhymes_strictness_monotone_same_path _ _ (by decide) (by decide)⟩

/-- C10: when a word's (lowercased, stripped) form ends with a suffix of the
RHYME_PATTERNS table, `get_phonetic_ending` returns the matched entry's full
phoneme code for every depth — the depth argument is ignored on this path, so
the result can be longer or shorter than `depth` symbols. -/
theorem pattern_ending_ignores_depth (w ph : Str) (d : ℕ)
    (h : firstRhymePattern (pyStrip (lowerStr w)) = some ph) :
    get_phonetic_ending w d = ph :=
  ending_of_pattern h d

/-- C10 (witness): "victoire" matches the "-oire" pattern, and at depth 1 the
returned ending is the full three-symbol code "waʁ". -/
theorem pattern_ending_ignores_depth_witness :
    firstRhymePattern (pyStrip (lowerStr ("victoire").data)) = some ("waʁ").data ∧
    get_phonetic_ending ("victoire").data 1 = ("waʁ").data :=
  ⟨by decide, pattern_ending_ignores_depth _ _ 1 (by decide)⟩

end FrRap
